import Mathlib

/-!
Verification of the SEP-24 test suite and console reporter of the
stellar-anchor-tests repository.

The development shallowly embeds the two source files
`src/tests/sep24/tests.ts` and `src/helpers/console.ts`:

- JavaScript optional string values become `Option String`; JavaScript
  truthiness of a string value (`undefined` and the empty string are falsy)
  becomes the `truthy` predicate.
- JavaScript objects used as string-keyed maps (the `/info` deposit map,
  header collections, failure catalogs) become association lists in
  enumeration (insertion) order.
- The console reporter, which performs `console.log` calls and awaits
  body streams, becomes a pure function producing the ordered trace of
  reporting events; reading a request or response body is an explicit
  event in the trace.
- The asynchronous `makeRequest` helper is modelled from the spec (its
  source is not part of the two files); a missing `await` at a call site
  is modelled by returning, next to the result the caller actually
  returns, the eventual result the pending helper invocation produces.
-/

namespace StellarAnchor

/-- JavaScript truthiness of an optional string: `undefined` and the empty
string are falsy, every other string is truthy. -/
def truthy : Option String → Bool
  | none => false
  | some s => !(s == "")

/-- JavaScript `a || b` on optional strings: yields `a` when `a` is truthy,
otherwise yields `b` (even when `b` is falsy). -/
def jsOr (a b : Option String) : Option String :=
  if truthy a then a else b

/-- JavaScript `String.prototype.includes`: substring containment. -/
def jsIncludes (s sub : String) : Bool :=
  s.toList.tails.any (fun t => sub.toList.isPrefixOf t)

/-- JavaScript `String.prototype.startsWith`, character-wise. -/
def strStartsWith (s p : String) : Bool :=
  p.toList.isPrefixOf s.toList

/-- The slice-based suffix test of tests.ts (`url.slice(-1) === "/"` is a
suffix comparison), character-wise. -/
def strEndsWith (s p : String) : Bool :=
  p.toList.isSuffixOf s.toList

/-- Lookup in an association list with string keys, as JavaScript property
access `obj[key]` on an object modelled in insertion order. -/
def headerLookup (entries : List (String × String)) (key : String) : Option String :=
  match entries.find? (fun p => p.1 == key) with
  | some p => some p.2
  | none => none

/-- Rendering of a template argument: JavaScript interpolation of a missing
property prints the string undefined. -/
def lookupArg (args : List (String × String)) (key : String) : String :=
  match args.find? (fun p => p.1 == key) with
  | some p => p.2
  | none => "undefined"

/-- A named failure kind with its message-rendering function over an
argument record, as in the failureModes catalogs of tests.ts. -/
structure FailureMode where
  name : String
  text : List (String × String) → String

/-- A rendered failure: the kind name plus the rendered message, as stored
on a Result. -/
structure Failure where
  name : String
  message : String
deriving DecidableEq

/-- A captured HTTP request, as the reporter in console.ts sees it: method,
url, header entries (lower-cased keys, insertion order, as produced by
Object.fromEntries over fetch headers) and an optional raw body. -/
structure RequestModel where
  method : String
  url : String
  headers : List (String × String)
  body : Option String
deriving DecidableEq

/-- A captured HTTP response, as the reporter in console.ts sees it. -/
structure ResponseModel where
  status : Nat
  headers : List (String × String)
  body : Option String
deriving DecidableEq

/-- A NetworkCall record: the request plus the response once one was
received. -/
structure NetworkCall where
  request : RequestModel
  response : Option ResponseModel
deriving DecidableEq

/-- The Result of one check invocation: optional failure, diagnostic
network calls, and the optional expected/actual payloads the reporter
prints. -/
structure Result where
  networkCalls : List NetworkCall
  failure : Option Failure
  expected : Option String
  actual : Option String
deriving DecidableEq

/-- Identity of a test object; tomlExists is the SEP-1 test imported by
tests.ts, the other four are declared in tests.ts. -/
inductive TestId
  | tomlExists
  | hasTransferServerUrl
  | isCompliantWithSchema
  | containsConfiguredAssetCode
  | depositRequiresToken
deriving DecidableEq

/-- The declarative part of a Test object from tests.ts: assertion, sep,
group, dependency references, failureModes catalog (in spread order) and
the context contract slot names. The id field stands for the object
identity used by dependency references. -/
structure Test where
  id : TestId
  assertion : String
  sep : Nat
  group : String
  dependencies : List TestId
  failureModes : List (String × FailureMode)
  expects : List String
  provides : List String
  successMessage : Option String

/-- Modelled from the spec: the run configuration from ../../types (not
under src/): suite-specific identifiers plus an optional asset code that a
check may auto-discover. -/
structure Config where
  homeDomain : String
  seps : List Nat
  assetCode : Option String
deriving DecidableEq

/-- The parsed /info response as containsConfiguredAssetCode reads it: the
deposit map as an association list of asset code to its enabled flag, in
enumeration order. -/
structure InfoObj where
  deposit : List (String × Bool)
deriving DecidableEq

/-- The stellar.toml object as hasTransferServerUrl reads it. -/
structure TomlObj where
  TRANSFER_SERVER_SEP0024 : Option String
  TRANSFER_SERVER : Option String
deriving DecidableEq

/-- Modelled from the spec: the outcome of one outbound request as the
makeRequest helper (helpers/request, not under src/) observes it - no
value when the connection failed, otherwise a status plus the body decoded
per the declared content type (none when unparsable). -/
structure HttpResponse (β : Type) where
  status : Nat
  decoded : Option β

/-- Modelled from the spec: makeFailure from helpers/failure (not under
src/) renders a Failure from a catalog entry and its argument record. -/
def makeFailure (mode : FailureMode) (args : List (String × String)) : Failure :=
  { name := mode.name, message := mode.text args }

/-- Modelled from the spec: the generic connection-refused failure kind of
the shared catalog in helpers/failure (not under src/). -/
def CONNECTION_ERROR : FailureMode :=
  { name := "connection error",
    text := fun args => "A connection failure occurred when making a request to " ++ lookupArg args "url" }

/-- Modelled from the spec: the generic non-2xx-status failure kind of the
shared catalog in helpers/failure (not under src/). -/
def UNEXPECTED_STATUS_CODE : FailureMode :=
  { name := "unexpected status code",
    text := fun args => "An unexpected status code was returned: " ++ lookupArg args "status" }

/-- Modelled from the spec: the generic malformed-body failure kind of the
shared catalog in helpers/failure (not under src/). -/
def BAD_CONTENT_TYPE : FailureMode :=
  { name := "bad content type",
    text := fun _ => "The response body could not be decoded per the declared content type" }

/-- Modelled from the spec: the generic schema-mismatch failure kind of
the shared catalog in helpers/failure (not under src/). -/
def SCHEMA_MISMATCH : FailureMode :=
  { name := "schema mismatch",
    text := fun args => "The response does not match the expected schema: " ++ lookupArg args "errors" }

/-- Modelled from the spec: genericFailures from helpers/failure (not
under src/), the shared catalog of generic failure kinds (connection
refused, non-2xx status, malformed body, schema mismatch) spread into the
failureModes catalogs of tests.ts. -/
def genericFailures : List (String × FailureMode) :=
  [("CONNECTION_ERROR", CONNECTION_ERROR),
   ("UNEXPECTED_STATUS_CODE", UNEXPECTED_STATUS_CODE),
   ("BAD_CONTENT_TYPE", BAD_CONTENT_TYPE),
   ("SCHEMA_MISMATCH", SCHEMA_MISMATCH)]

/-- Modelled from the spec: makeRequest from helpers/request (not under
src/). It receives the network call, the expected status code, the result
under construction and the declared content type; on connection failure,
status mismatch or an unparsable body it appends a Failure from the
generic catalog to the result and returns no decoded body, otherwise it
returns the decoded body. The recording of the response onto the network
call is outside the model. -/
def makeRequest {β : Type} (call : NetworkCall) (expectedStatus : Nat) (result : Result)
    (_contentType : Option String) (resp : Option (HttpResponse β)) : Option β × Result :=
  match resp with
  | none =>
      (none, { result with failure := some (makeFailure CONNECTION_ERROR [("url", call.request.url)]) })
  | some r =>
      if r.status ≠ expectedStatus then
        (none, { result with failure := some (makeFailure UNEXPECTED_STATUS_CODE [("status", toString r.status)]) })
      else
        match r.decoded with
        | none => (none, { result with failure := some (makeFailure BAD_CONTENT_TYPE []) })
        | some b => (some b, result)

/-- Group label tomlTestsGroup of tests.ts. -/
def tomlTestsGroup : String := "TOML tests"

/-- Group label infoTestsGroup of tests.ts. -/
def infoTestsGroup : String := "/info tests"

/-- Group label depositTestsGroup of tests.ts. -/
def depositTestsGroup : String := "/deposit tests"

/-- Endpoint suffix depositEndpoint of tests.ts. -/
def depositEndpoint : String := "/transactions/deposit/interactive"

/-- Failure kind TRANSFER_SERVER_NOT_FOUND of hasTransferServerUrl. -/
def TRANSFER_SERVER_NOT_FOUND : FailureMode :=
  { name := "TRANSFER_SERVER_SEP0024 not found",
    text := fun _ => "The stellar.toml file does not have a valid TRANSFER_SERVER_SEP0024 URL" }

/-- Failure kind NO_HTTPS of hasTransferServerUrl. -/
def NO_HTTPS : FailureMode :=
  { name := "no https",
    text := fun _ => "The transfer server URL must use HTTPS" }

/-- Failure kind ENDS_WITH_SLASH of hasTransferServerUrl. -/
def ENDS_WITH_SLASH : FailureMode :=
  { name := "ends with slash",
    text := fun _ => "The transfer server URL cannot end with a \x27/\x27" }

/-- Failure kind INVALID_SCHEMA of isCompliantWithSchema. -/
def INVALID_SCHEMA : FailureMode :=
  { name := "invalid schema",
    text := fun args =>
      "The response body returned does not comply with the schema defined for the /info endpoint:\n\n" ++
      "https://github.com/stellar/stellar-protocol/blob/master/ecosystem/sep-0024.md#info\n\n" ++
      "The errors returned from the schema validation:\n\n" ++ lookupArg args "errors" }

/-- Failure kind CONFIGURED_ASSET_CODE_NOT_FOUND of
containsConfiguredAssetCode. -/
def CONFIGURED_ASSET_CODE_NOT_FOUND : FailureMode :=
  { name := "configured asset code not found",
    text := fun args => lookupArg args "assetCode" ++ " is not present in the /info response" }

/-- Failure kind CONFIGURED_ASSET_CODE_NOT_ENABLED of
containsConfiguredAssetCode. -/
def CONFIGURED_ASSET_CODE_NOT_ENABLED : FailureMode :=
  { name := "configured asset code not enabled",
    text := fun args => lookupArg args "assetCode" ++ " is not enabled for SEP-24" }

/-- Failure kind NO_ASSET_CODES of containsConfiguredAssetCode. -/
def NO_ASSET_CODES : FailureMode :=
  { name := "no enabled assets",
    text := fun _ => "There are no enabled assets in the /info response" }

/-- Failure kind NO_INFO of containsConfiguredAssetCode. -/
def NO_INFO : FailureMode :=
  { name := "unable to parse or fetch /info JSON",
    text := fun _ => "unable to fetch JSON" }

/-- The declarative part of the hasTransferServerUrl test of tests.ts. Its
failureModes catalog holds only its three named kinds. -/
def hasTransferServerUrl : Test :=
  { id := TestId.hasTransferServerUrl,
    assertion := "has a valid transfer server URL",
    sep := 24,
    group := tomlTestsGroup,
    dependencies := [TestId.tomlExists],
    failureModes :=
      [("TRANSFER_SERVER_NOT_FOUND", TRANSFER_SERVER_NOT_FOUND),
       ("NO_HTTPS", NO_HTTPS),
       ("ENDS_WITH_SLASH", ENDS_WITH_SLASH)],
    expects := ["tomlObj"],
    provides := ["transferServerUrl"],
    successMessage := none }

/-- The declarative part of the isCompliantWithSchema test of tests.ts;
its failureModes spread genericFailures after INVALID_SCHEMA. -/
def isCompliantWithSchema : Test :=
  { id := TestId.isCompliantWithSchema,
    assertion := "response is compliant with the schema",
    sep := 24,
    group := infoTestsGroup,
    dependencies := [TestId.tomlExists, TestId.hasTransferServerUrl],
    failureModes := [("INVALID_SCHEMA", INVALID_SCHEMA)] ++ genericFailures,
    expects := ["transferServerUrl"],
    provides := ["infoObj"],
    successMessage := none }

/-- The declarative part of the containsConfiguredAssetCode test of
tests.ts; its failureModes spread genericFailures after its four named
kinds. -/
def containsConfiguredAssetCode : Test :=
  { id := TestId.containsConfiguredAssetCode,
    assertion := "contains configured asset code",
    sep := 24,
    group := infoTestsGroup,
    dependencies := [TestId.tomlExists, TestId.isCompliantWithSchema],
    failureModes :=
      [("CONFIGURED_ASSET_CODE_NOT_FOUND", CONFIGURED_ASSET_CODE_NOT_FOUND),
       ("CONFIGURED_ASSET_CODE_NOT_ENABLED", CONFIGURED_ASSET_CODE_NOT_ENABLED),
       ("NO_ASSET_CODES", NO_ASSET_CODES),
       ("NO_INFO", NO_INFO)] ++ genericFailures,
    expects := ["infoObj"],
    provides := [],
    successMessage := none }

/-- The declarative part of the depositRequiresToken test of tests.ts; its
failureModes catalog is exactly the spread of genericFailures. -/
def depositRequiresToken : Test :=
  { id := TestId.depositRequiresToken,
    assertion := "requires a SEP-10 JWT",
    sep := 24,
    group := depositTestsGroup,
    dependencies := [TestId.hasTransferServerUrl, TestId.containsConfiguredAssetCode],
    failureModes := genericFailures,
    expects := ["transferServerUrl"],
    provides := [],
    successMessage := none }

/-- The exported tests list of tests.ts, in push order. -/
def tests : List Test :=
  [hasTransferServerUrl, isCompliantWithSchema, containsConfiguredAssetCode, depositRequiresToken]

/-- The run function of hasTransferServerUrl (tests.ts lines 51-69). The
tuple is the returned Result, the provides.transferServerUrl value the run
stores in its context, and the configuration after the run (the source
never touches its config parameter). The falsy check on the provided url
covers both an absent field and the empty string. -/
def hasTransferServerUrl_run (config : Config) (toml : TomlObj) :
    Result × Option String × Config :=
  let result : Result := { networkCalls := [], failure := none, expected := none, actual := none }
  match jsOr toml.TRANSFER_SERVER_SEP0024 toml.TRANSFER_SERVER with
  | none =>
      ({ result with failure := some (makeFailure TRANSFER_SERVER_NOT_FOUND []) }, none, config)
  | some s =>
      if s = "" then
        ({ result with failure := some (makeFailure TRANSFER_SERVER_NOT_FOUND []) }, some s, config)
      else if strStartsWith s "https" = false then
        ({ result with failure := some (makeFailure NO_HTTPS []) }, some s, config)
      else if strEndsWith s "/" = true then
        ({ result with failure := some (makeFailure ENDS_WITH_SLASH []) }, some s, config)
      else
        (result, some s, config)

/-- The run function of isCompliantWithSchema (tests.ts lines 100-125).
The response of the GET to transferServerUrl plus /info and the error list
of the external jsonschema validator are inputs; the tuple is the returned
Result, the provides.infoObj value, and the configuration after the run
(the source never touches its config parameter). -/
def isCompliantWithSchema_run (config : Config) (transferServerUrl : String)
    (resp : Option (HttpResponse InfoObj)) (validationErrors : List String) :
    Result × Option InfoObj × Config :=
  let infoCall : NetworkCall :=
    { request := { method := "GET", url := transferServerUrl ++ "/info", headers := [], body := none },
      response := none }
  let result0 : Result :=
    { networkCalls := [infoCall], failure := none, expected := none, actual := none }
  let reqOut := makeRequest infoCall 200 result0 (some "application/json") resp
  let infoObj := reqOut.1
  let result1 := reqOut.2
  if result1.failure.isSome then
    (result1, infoObj, config)
  else if validationErrors.length > 0 then
    ({ result1 with
        failure := some (makeFailure INVALID_SCHEMA [("errors", String.intercalate "\n" validationErrors)]) },
     infoObj, config)
  else
    (result1, infoObj, config)

/-- The first enabled entry of the deposit map, in enumeration order: the
for-in loop of containsConfiguredAssetCode assigns it and breaks. -/
def firstEnabledAsset : List (String × Bool) → Option String
  | [] => none
  | (code, enabled) :: rest => if enabled then some code else firstEnabledAsset rest

/-- JavaScript property access on the deposit map: the enabled flag of the
entry at the given key, none when the key is absent. -/
def jsLookup (assets : List (String × Bool)) (key : String) : Option Bool :=
  match assets.find? (fun p => p.1 == key) with
  | some p => some p.2
  | none => none

/-- The run function of containsConfiguredAssetCode (tests.ts lines
167-197). The tuple is the returned Result and the configuration after the
run; the discovery branch is taken when config.assetCode is falsy (absent
or the empty string), assigns the first enabled asset code, and then
re-checks falsiness, so an empty-string asset code still yields
NO_ASSET_CODES. -/
def containsConfiguredAssetCode_run (config : Config) (infoObj : InfoObj) :
    Result × Config :=
  let result : Result := { networkCalls := [], failure := none, expected := none, actual := none }
  let depositAssets := infoObj.deposit
  if truthy config.assetCode = false then
    let config1 :=
      match firstEnabledAsset depositAssets with
      | some code => { config with assetCode := some code }
      | none => config
    if truthy config1.assetCode = false then
      ({ result with failure := some (makeFailure NO_ASSET_CODES []) }, config1)
    else
      (result, config1)
  else
    let code := config.assetCode.getD ""
    match jsLookup depositAssets code with
    | none =>
        ({ result with failure := some (makeFailure CONFIGURED_ASSET_CODE_NOT_FOUND [("assetCode", code)]) },
         config)
    | some enabled =>
        if enabled = false then
          ({ result with failure := some (makeFailure CONFIGURED_ASSET_CODE_NOT_ENABLED [("assetCode", code)]) },
           config)
        else
          (result, config)

/-- The JSON body the depositRequiresToken run posts:
JSON.stringify of the record with the random account and the configured
asset code; stringify drops the asset_code key when the value is
undefined. -/
def depositBody (account : String) (assetCode : Option String) : String :=
  match assetCode with
  | some code => "\x7b\"account\":\"" ++ account ++ "\",\"asset_code\":\"" ++ code ++ "\"\x7d"
  | none => "\x7b\"account\":\"" ++ account ++ "\"\x7d"

/-- The run function of depositRequiresToken (tests.ts lines 215-235). The
source calls makeRequest without awaiting it, so the Result the run
returns is the one built before the helper resolves; the third component
is the eventual state of that Result once the pending helper invocation
has applied its update after the run already returned. The randomly
generated account key is an input. -/
def depositRequiresToken_run (config : Config) (transferServerUrl : String) (account : String)
    (resp : Option (HttpResponse String)) : Result × Config × Result :=
  let postDepositCall : NetworkCall :=
    { request :=
        { method := "POST",
          url := transferServerUrl ++ depositEndpoint,
          headers := [("content-type", "application/json")],
          body := some (depositBody account config.assetCode) },
      response := none }
  let result : Result :=
    { networkCalls := [postDepositCall], failure := none, expected := none, actual := none }
  let eventualResult := (makeRequest postDepositCall 403 result none resp).2
  (result, config, eventualResult)

/-- The suite metadata the reporter reads off a TestRun. -/
structure Suite where
  name : String
  sep : Option Nat
deriving DecidableEq

/-- A TestRun as the reporter in console.ts receives it: the test, the
optional suite metadata and the Result. -/
structure TestRun where
  test : Test
  suite : Option Suite
  result : Result

/-- One suite row of the per-suite statistics rendered by
printColoredTextStats. -/
structure SuiteStat where
  name : String
  failed : Nat
  passed : Nat
deriving DecidableEq

/-- Modelled from the spec: the Stats Aggregator (not under src/) derives
a suite row from the member runs of one group label; its failed counter is
the number of member runs whose Result carries a Failure, its passed
counter the number without one. -/
def suiteStatOfRuns (name : String) (runs : List TestRun) : SuiteStat :=
  { name := name,
    failed := runs.countP (fun r => r.result.failure.isSome),
    passed := runs.countP (fun r => r.result.failure.isNone) }

/-- The suitesPassed accumulation loop of printColoredTextStats
(console.ts lines 21-25): a suite counts as passed exactly when its failed
counter is zero. -/
def suitesPassedOf (l : List SuiteStat) : Nat :=
  l.foldl (fun acc s => if s.failed = 0 then acc + 1 else acc) 0

/-- The failed count shown on the Test Suites line of
printColoredTextStats (console.ts lines 27-29): the difference between the
number of suites and the suites counted passed, shown only when it is
nonzero. -/
def reportedSuitesFailed (l : List SuiteStat) : Nat :=
  if l.length = suitesPassedOf l then 0 else l.length - suitesPassedOf l

/-- One event of the reporting trace of printColoredTextTestRun. The
read events stand for the awaited body-stream consumptions
(request.json(), request.text(), response.json(), response.text());
console grouping, colors and glyphs are abstracted away. -/
inductive REvent
  | header (line : String)
  | failureName (name : String)
  | failureMessage (message : String)
  | expectedReceived (expected actual : String)
  | successDescription (message : Option String)
  | requestLine (method url : String)
  | requestHeader (key value : String)
  | requestBodyJsonRead
  | requestBodyTextRead
  | requestBody (body : String)
  | responseStatus (status : Nat)
  | responseHeader (key value : String)
  | responseBodyJsonRead
  | responseBodyTextRead
  | noResponse
deriving DecidableEq

/-- The request-body printing after a read (console.ts lines 112-122): a
falsy body prints nothing. Parsing is abstracted: bodies are carried as
their raw text. -/
def bodyPrint (b : Option String) : List REvent :=
  match b with
  | some s => if s = "" then [] else [REvent.requestBody s]
  | none => []

/-- The request-body part of the verbose rendering (console.ts lines
96-122): the body read is selected by the declared content type; a
multipart body is skipped without a read (a TODO in the source), any other
content type is read as text. -/
def requestBodyEvents (req : RequestModel) : List REvent :=
  match headerLookup req.headers "content-type" with
  | some ct =>
      if jsIncludes ct "json" = true then
        REvent.requestBodyJsonRead :: bodyPrint req.body
      else if jsIncludes ct "multipart/form-data" = true then
        []
      else
        REvent.requestBodyTextRead :: bodyPrint req.body
  | none => REvent.requestBodyTextRead :: bodyPrint req.body

/-- The response part of the verbose rendering (console.ts lines
123-155): whenever a response is present, its status and headers are
shown and its body is read, as JSON or as text per the response content
type. -/
def responseEvents (response : Option ResponseModel) : List REvent :=
  match response with
  | some resp =>
      [REvent.responseStatus resp.status] ++
      resp.headers.map (fun p => REvent.responseHeader p.1 p.2) ++
      (match headerLookup resp.headers "content-type" with
       | some ct =>
           if jsIncludes ct "json" = true then [REvent.responseBodyJsonRead]
           else [REvent.responseBodyTextRead]
       | none => [REvent.responseBodyTextRead])
  | none => [REvent.noResponse]

/-- The per-call section of the verbose network-call rendering
(console.ts lines 78-157): request line and headers, then the request
body section, then the response section. -/
def renderNetworkCall (call : NetworkCall) : List REvent :=
  ([REvent.requestLine call.request.method call.request.url] ++
   call.request.headers.map (fun p => REvent.requestHeader p.1 p.2)) ++
  requestBodyEvents call.request ++
  responseEvents call.response

/-- The reporting trace of printColoredTextTestRun (console.ts lines
44-160): the header line, then on failure the failure name and message
plus the Expected/Received pair when both payloads are truthy, otherwise
the verbose success description; the network-call sections are rendered
only when verbose and at least one call was captured. A zero sep is falsy
and suppresses the SEP prefix, as in the source. -/
def printColoredTextTestRun (testRun : TestRun) (verbose : Bool) : List REvent :=
  let headerLine :=
    (match testRun.suite with
     | some suite =>
         (match suite.sep with
          | some n => if n ≠ 0 then "SEP-" ++ toString n ++ " > " else ""
          | none => "") ++ suite.name ++ " > "
     | none => "") ++ testRun.test.assertion
  let resultEvents :=
    match testRun.result.failure with
    | some f =>
        [REvent.failureName f.name, REvent.failureMessage f.message] ++
        (match testRun.result.expected, testRun.result.actual with
         | some e, some a => if e ≠ "" ∧ a ≠ "" then [REvent.expectedReceived e a] else []
         | _, _ => [])
    | none => if verbose then [REvent.successDescription testRun.test.successMessage] else []
  let networkEvents :=
    if verbose = true ∧ testRun.result.networkCalls ≠ [] then
      (testRun.result.networkCalls.map renderNetworkCall).flatten
    else []
  [REvent.header headerLine] ++ resultEvents ++ networkEvents

/-- The exported printTestRun of console.ts delegates to
printColoredTextTestRun. -/
def printTestRun (testRun : TestRun) (verbose : Bool) : List REvent :=
  printColoredTextTestRun testRun verbose

/-- Discriminates the body-read events of a reporting trace. -/
def isBodyRead : REvent → Bool
  | REvent.requestBodyJsonRead => true
  | REvent.requestBodyTextRead => true
  | REvent.responseBodyJsonRead => true
  | REvent.responseBodyTextRead => true
  | _ => false

/-- Discriminates the Expected/Received event of a reporting trace. -/
def isExpectedReceived : REvent → Bool
  | REvent.expectedReceived _ _ => true
  | _ => false

/-- A run configuration with no configured asset code. -/
def configNoAsset : Config :=
  { homeDomain := "testanchor.stellar.org", seps := [1, 24], assetCode := none }

/-- A run configuration whose asset code is configured as USDC. -/
def configUSDC : Config :=
  { homeDomain := "testanchor.stellar.org", seps := [1, 24], assetCode := some "USDC" }

/-- A run configuration whose asset code is present but the empty string,
which JavaScript treats as falsy. -/
def configEmptyAsset : Config :=
  { homeDomain := "testanchor.stellar.org", seps := [1, 24], assetCode := some "" }

/-- A stellar.toml whose SEP-24 transfer server URL uses plain http. -/
def tomlHttp : TomlObj :=
  { TRANSFER_SERVER_SEP0024 := some "http://x", TRANSFER_SERVER := none }

/-- A deposit map whose first enabled entry is USDC. -/
def infoUSDC : InfoObj :=
  { deposit := [("BTC", false), ("USDC", true)] }

/-- A deposit map with a single enabled entry whose asset code is the
empty string. -/
def infoEmptyKey : InfoObj :=
  { deposit := [("", true)] }

/-- A captured network call with a JSON response, as left behind by a
check for the verbose reporter. -/
def sampleCall : NetworkCall :=
  { request :=
      { method := "GET", url := "https://transfer.example.com/info", headers := [], body := none },
    response :=
      some { status := 200, headers := [("content-type", "application/json")], body := some "ok" } }

/-- A passing TestRun carrying one captured network call. -/
def sampleRun : TestRun :=
  { test := isCompliantWithSchema,
    suite := some { name := "SEP-24 tests", sep := some 24 },
    result := { networkCalls := [sampleCall], failure := none, expected := none, actual := none } }

/-- A failed TestRun whose Result carries both an expected and an actual
payload. -/
def failedRun : TestRun :=
  { test := hasTransferServerUrl,
    suite := some { name := "SEP-24 tests", sep := some 24 },
    result :=
      { networkCalls := [],
        failure := some (makeFailure NO_HTTPS []),
        expected := some "https://transfer.example.com",
        actual := some "http://x" } }

/-- A 200 response to the unauthenticated deposit POST, where 403 was
expected. -/
def depositResp200 : HttpResponse String :=
  { status := 200, decoded := some "\x7b\x7d" }

/-- A concrete pair of suite rows for evaluating the stats rendering. -/
def sampleSuiteStats : List SuiteStat :=
  [{ name := "SEP-1", failed := 0, passed := 3 },
   { name := "SEP-24", failed := 2, passed := 1 }]

/-- C1 counterexample: hasTransferServerUrl belongs to the exported SEP-24
suite and CONNECTION_ERROR is one of the generic failure kinds, yet the
failureModes catalog of hasTransferServerUrl does not contain it - the
generic catalog is not merged into that test. -/
theorem generic_catalog_not_merged_cx :
    TestId.hasTransferServerUrl ∈ tests.map Test.id ∧
    "CONNECTION_ERROR" ∈ genericFailures.map Prod.fst ∧
    "CONNECTION_ERROR" ∉ hasTransferServerUrl.failureModes.map Prod.fst := by
  decide

/-- C1 amended: every test of the exported SEP-24 suite other than
hasTransferServerUrl has all generic failure kinds merged into its
failureModes catalog; hasTransferServerUrl carries only its three named
kinds. -/
theorem generic_catalog_merged_except_hasTransferServerUrl :
    ∀ j : Fin tests.length, (tests.get j).id ≠ TestId.hasTransferServerUrl →
      ∀ k ∈ genericFailures.map Prod.fst, k ∈ (tests.get j).failureModes.map Prod.fst := by
  decide

/-- C1 witness: the generic CONNECTION_ERROR kind is in the catalog of
depositRequiresToken, the last test of the suite. -/
theorem generic_catalog_merged_witness :
    "CONNECTION_ERROR" ∈ (tests.get ⟨3, by decide⟩).failureModes.map Prod.fst :=
  generic_catalog_merged_except_hasTransferServerUrl ⟨3, by decide⟩ (by decide)
    "CONNECTION_ERROR" (by decide)

/-- C7: the exported tests list is a topological order of the declared
dependency graph - every dependency of a test that is itself a member of
the list occurs at a strictly smaller index, and a dependency outside the
list can only be tomlExists; the declared references therefore form a
DAG. -/
theorem sep24_tests_topological_order :
    ∀ j : Fin tests.length, ∀ d ∈ (tests.get j).dependencies,
      (d ∈ tests.map Test.id → (tests.map Test.id).indexOf d < j.val) ∧
      (d ∉ tests.map Test.id → d = TestId.tomlExists) := by
  decide

/-- C7 witness: the hasTransferServerUrl dependency of
isCompliantWithSchema (index 1) sits at index 0. -/
theorem sep24_tests_topological_order_witness :
    (tests.map Test.id).indexOf TestId.hasTransferServerUrl < 1 :=
  (sep24_tests_topological_order ⟨1, by decide⟩ TestId.hasTransferServerUrl (by decide)).1
    (by decide)

/-- The transferServerUrl value the hasTransferServerUrl run stores in its
provides slot is always the JavaScript-or of the two toml fields. -/
theorem hasTransferServerUrl_run_provides (config : Config) (toml : TomlObj) :
    (hasTransferServerUrl_run config toml).2.1 =
      jsOr toml.TRANSFER_SERVER_SEP0024 toml.TRANSFER_SERVER := by
  unfold hasTransferServerUrl_run
  cases h : jsOr toml.TRANSFER_SERVER_SEP0024 toml.TRANSFER_SERVER with
  | none => simp [h]
  | some s => simp [h]; split_ifs <;> simp

/-- The hasTransferServerUrl run yields the TRANSFER_SERVER_NOT_FOUND
failure exactly when the JavaScript-or of the two toml fields is falsy. -/
theorem hasTransferServerUrl_run_not_found_iff (config : Config) (toml : TomlObj) :
    ((hasTransferServerUrl_run config toml).1.failure =
        some (makeFailure TRANSFER_SERVER_NOT_FOUND []) ↔
      truthy (jsOr toml.TRANSFER_SERVER_SEP0024 toml.TRANSFER_SERVER) = false) := by
  unfold hasTransferServerUrl_run
  cases h : jsOr toml.TRANSFER_SERVER_SEP0024 toml.TRANSFER_SERVER with
  | none => simp [h, truthy]
  | some s =>
      simp only [h]
      split_ifs with h1 h2 h3 <;>
        simp [truthy, h1, makeFailure, TRANSFER_SERVER_NOT_FOUND, NO_HTTPS, ENDS_WITH_SLASH]

/-- Truthiness of the JavaScript-or is the disjunction of the
truthiness of its operands. -/
theorem truthy_jsOr (a b : Option String) :
    truthy (jsOr a b) = (truthy a || truthy b) := by
  unfold jsOr
  split_ifs with h <;> simp [h]

/-- C4: whenever the resolved transfer server URL is truthy but does not
start with https, the hasTransferServerUrl run returns the NO_HTTPS
failure, whose kind name is no https, and captures no network calls. -/
theorem hasTransferServerUrl_no_https (config : Config) (toml : TomlObj) (s : String)
    (hres : jsOr toml.TRANSFER_SERVER_SEP0024 toml.TRANSFER_SERVER = some s)
    (hne : s ≠ "") (hhttps : strStartsWith s "https" = false) :
    (hasTransferServerUrl_run config toml).1.failure = some (makeFailure NO_HTTPS []) ∧
    (makeFailure NO_HTTPS []).name = "no https" ∧
    (hasTransferServerUrl_run config toml).1.networkCalls = [] := by
  unfold hasTransferServerUrl_run
  simp [hres, hne, hhttps, makeFailure, NO_HTTPS]

/-- C4 witness: with TRANSFER_SERVER_SEP0024 set to the plain-http URL
http://x the run fails with the no-https kind and records no network
calls. -/
theorem hasTransferServerUrl_no_https_witness :
    (hasTransferServerUrl_run configNoAsset tomlHttp).1.failure = some (makeFailure NO_HTTPS []) ∧
    (makeFailure NO_HTTPS []).name = "no https" ∧
    (hasTransferServerUrl_run configNoAsset tomlHttp).1.networkCalls = [] :=
  hasTransferServerUrl_no_https configNoAsset tomlHttp "http://x" (by decide) (by decide) (by decide)

/-- C9: the hasTransferServerUrl run provides TRANSFER_SERVER_SEP0024 when
that field is truthy and falls back to TRANSFER_SERVER otherwise, and it
returns the TRANSFER_SERVER_NOT_FOUND failure exactly when both fields are
falsy. -/
theorem hasTransferServerUrl_provides_fallback (config : Config) (toml : TomlObj) :
    (truthy toml.TRANSFER_SERVER_SEP0024 = true →
      (hasTransferServerUrl_run config toml).2.1 = toml.TRANSFER_SERVER_SEP0024) ∧
    (truthy toml.TRANSFER_SERVER_SEP0024 = false →
      (hasTransferServerUrl_run config toml).2.1 = toml.TRANSFER_SERVER) ∧
    ((hasTransferServerUrl_run config toml).1.failure =
        some (makeFailure TRANSFER_SERVER_NOT_FOUND []) ↔
      truthy toml.TRANSFER_SERVER_SEP0024 = false ∧ truthy toml.TRANSFER_SERVER = false) := by
  refine ⟨fun h => ?_, fun h => ?_, ?_⟩
  · rw [hasTransferServerUrl_run_provides]
    simp [jsOr, h]
  · rw [hasTransferServerUrl_run_provides]
    simp [jsOr, h]
  · rw [hasTransferServerUrl_run_not_found_iff, truthy_jsOr]
    simp

/-- C9 witness: with a truthy TRANSFER_SERVER_SEP0024 of http://x the run
provides exactly that field. -/
theorem hasTransferServerUrl_provides_fallback_witness :
    (hasTransferServerUrl_run configNoAsset tomlHttp).2.1 = tomlHttp.TRANSFER_SERVER_SEP0024 :=
  (hasTransferServerUrl_provides_fallback configNoAsset tomlHttp).1 (by decide)

/-- C5 counterexample: with no configured asset code and a deposit map
whose only (enabled) entry has the empty string as its asset code, the run
returns the NO_ASSET_CODES failure even though an enabled deposit asset
exists, because the freshly assigned empty code is still falsy. -/
theorem containsConfiguredAssetCode_empty_code_cx :
    configNoAsset.assetCode = none ∧
    infoEmptyKey.deposit.any (fun p => p.2) = true ∧
    (containsConfiguredAssetCode_run configNoAsset infoEmptyKey).1.failure =
      some (makeFailure NO_ASSET_CODES []) := by
  decide

/-- C5 amended: when config.assetCode is absent, the run assigns the first
enabled asset code of the deposit map (in enumeration order) to
config.assetCode and returns no failure provided that code is nonempty; it
returns the NO_ASSET_CODES failure when no deposit asset is enabled (the
asset code then stays unset) or when the first enabled code is the empty
string (the asset code is then set to that empty string). -/
theorem containsConfiguredAssetCode_autodiscovery (config : Config) (info : InfoObj)
    (h : config.assetCode = none) :
    (∀ c, firstEnabledAsset info.deposit = some c →
        ((containsConfiguredAssetCode_run config info).2.assetCode = some c ∧
         (c ≠ "" → (containsConfiguredAssetCode_run config info).1.failure = none) ∧
         (c = "" → (containsConfiguredAssetCode_run config info).1.failure =
            some (makeFailure NO_ASSET_CODES [])))) ∧
    (firstEnabledAsset info.deposit = none →
        ((containsConfiguredAssetCode_run config info).1.failure =
            some (makeFailure NO_ASSET_CODES []) ∧
         (containsConfiguredAssetCode_run config info).2.assetCode = none)) := by
  constructor
  · intro c hc
    by_cases hce : c = ""
    · subst hce
      unfold containsConfiguredAssetCode_run
      simp [h, truthy, hc]
    · unfold containsConfiguredAssetCode_run
      simp [h, truthy, hc, hce]
  · intro hnone
    unfold containsConfiguredAssetCode_run
    simp [h, truthy, hnone]

/-- C5 witness: with no configured asset code and a deposit map whose
first enabled entry is USDC, the run assigns USDC and reports no
failure. -/
theorem containsConfiguredAssetCode_autodiscovery_witness :
    (containsConfiguredAssetCode_run configNoAsset infoUSDC).2.assetCode = some "USDC" ∧
    (containsConfiguredAssetCode_run configNoAsset infoUSDC).1.failure = none :=
  ⟨((containsConfiguredAssetCode_autodiscovery configNoAsset infoUSDC rfl).1 "USDC" (by decide)).1,
   ((containsConfiguredAssetCode_autodiscovery configNoAsset infoUSDC rfl).1 "USDC"
      (by decide)).2.1 (by decide)⟩

/-- C6 counterexample: a configuration whose asset code is present (the
empty string) is still overwritten by containsConfiguredAssetCode, so the
asset code is not written only when it was previously absent. -/
theorem config_frame_empty_assetCode_cx :
    configEmptyAsset.assetCode = some "" ∧
    (containsConfiguredAssetCode_run configEmptyAsset infoUSDC).2.assetCode = some "USDC" := by
  decide

/-- C6 amended: across the four SEP-24 run functions the only RunConfig
field ever written is assetCode, written only by
containsConfiguredAssetCode and only when the previous value was falsy
(absent or the empty string); every other field is unchanged by every
check. -/
theorem runs_config_frame :
    (∀ (config : Config) (toml : TomlObj),
        (hasTransferServerUrl_run config toml).2.2 = config) ∧
    (∀ (config : Config) (url : String) (resp : Option (HttpResponse InfoObj))
        (errs : List String),
        (isCompliantWithSchema_run config url resp errs).2.2 = config) ∧
    (∀ (config : Config) (url account : String) (resp : Option (HttpResponse String)),
        (depositRequiresToken_run config url account resp).2.1 = config) ∧
    (∀ (config : Config) (info : InfoObj), truthy config.assetCode = true →
        (containsConfiguredAssetCode_run config info).2 = config) ∧
    (∀ (config : Config) (info : InfoObj),
        (containsConfiguredAssetCode_run config info).2.homeDomain = config.homeDomain ∧
        (containsConfiguredAssetCode_run config info).2.seps = config.seps) := by
  refine ⟨?_, ?_, ?_, ?_, ?_⟩
  · intro config toml
    unfold hasTransferServerUrl_run
    cases h : jsOr toml.TRANSFER_SERVER_SEP0024 toml.TRANSFER_SERVER with
    | none => simp [h]
    | some s => simp [h]; split_ifs <;> rfl
  · intro config url resp errs
    simp only [isCompliantWithSchema_run]
    split_ifs <;> rfl
  · intro config url account resp
    rfl
  · intro config info h
    simp only [containsConfiguredAssetCode_run, h]
    cases hl : jsLookup info.deposit (config.assetCode.getD "") with
    | none => rfl
    | some enabled => cases enabled <;> rfl
  · intro config info
    simp only [containsConfiguredAssetCode_run]
    split_ifs
    · cases firstEnabledAsset info.deposit <;> exact ⟨rfl, rfl⟩
    · cases firstEnabledAsset info.deposit <;> exact ⟨rfl, rfl⟩
    · cases hl : jsLookup info.deposit (config.assetCode.getD "") with
      | none => exact ⟨rfl, rfl⟩
      | some enabled => cases enabled <;> exact ⟨rfl, rfl⟩

/-- C6 witness: with a truthy configured asset code the whole
configuration passes through containsConfiguredAssetCode unchanged. -/
theorem runs_config_frame_witness :
    (containsConfiguredAssetCode_run configUSDC infoUSDC).2 = configUSDC :=
  runs_config_frame.2.2.2.1 configUSDC infoUSDC (by decide)

/-- C2: the source of depositRequiresToken.run calls makeRequest without
awaiting it, so when the deposit endpoint answers 200 where 403 was
expected, the Result the run returns still carries no Failure; the
status-mismatch Failure reaches the Result only after the run has
already returned (the eventual-result component). -/
theorem depositRequiresToken_missing_await :
    (depositRequiresToken_run configUSDC "https://transfer.example.com" "GACX"
        (some depositResp200)).1.failure = none ∧
    (depositRequiresToken_run configUSDC "https://transfer.example.com" "GACX"
        (some depositResp200)).2.2.failure =
      some (makeFailure UNEXPECTED_STATUS_CODE [("status", "200")]) := by
  exact ⟨rfl, by decide⟩

/-- The suitesPassed loop starting from an accumulator counts the suite
rows whose failed counter is zero. -/
theorem foldl_suitesPassed (l : List SuiteStat) (n : Nat) :
    l.foldl (fun acc s => if s.failed = 0 then acc + 1 else acc) n =
      n + l.countP (fun s => s.failed == 0) := by
  induction l generalizing n with
  | nil => simp
  | cons a t ih =>
      simp only [List.foldl_cons, List.countP_cons, ih]
      by_cases h : a.failed = 0
      · simp [h]
        omega
      · simp [h]

/-- The rows counted passed and the rows counted failed partition the
suite rows. -/
theorem countP_failed_split (l : List SuiteStat) :
    l.countP (fun s => s.failed == 0) + l.countP (fun s => !(s.failed == 0)) = l.length := by
  induction l with
  | nil => rfl
  | cons a t ih =>
      simp only [List.countP_cons, List.length_cons]
      by_cases h : a.failed = 0 <;> simp [h] <;> omega

/-- C8: a suite is counted passed by the stats rendering exactly when its
failed counter is zero, the failed count it reports is the number of
suites with a nonzero failed counter, and (with the aggregator modelled
from the spec) a suite has failed counter zero exactly when no member run
failed. -/
theorem stats_suite_pass_fail_counts (l : List SuiteStat) :
    suitesPassedOf l = l.countP (fun s => s.failed == 0) ∧
    reportedSuitesFailed l = l.countP (fun s => !(s.failed == 0)) ∧
    ∀ (name : String) (runs : List TestRun),
      ((suiteStatOfRuns name runs).failed = 0 ↔ ∀ r ∈ runs, r.result.failure = none) := by
  have hp : suitesPassedOf l = l.countP (fun s => s.failed == 0) := by
    unfold suitesPassedOf
    rw [foldl_suitesPassed]
    omega
  refine ⟨hp, ?_, ?_⟩
  · unfold reportedSuitesFailed
    rw [hp]
    have hsum := countP_failed_split l
    split_ifs with h <;> omega
  · intro name runs
    unfold suiteStatOfRuns
    simp only [List.countP_eq_zero]
    constructor
    · intro h r hr
      have h2 := h r hr
      cases hr2 : r.result.failure with
      | none => rfl
      | some x => rw [hr2] at h2; simp at h2
    · intro h r hr
      simp [h r hr]

/-- C8 witness: on a concrete pair of suite rows the loop value equals the
count of rows with failed counter zero. -/
theorem stats_suite_pass_fail_counts_witness :
    suitesPassedOf sampleSuiteStats = sampleSuiteStats.countP (fun s => s.failed == 0) :=
  (stats_suite_pass_fail_counts sampleSuiteStats).1

/-- C3 counterexample: on a passing TestRun with one captured network
call, the verbose reporter performs two body reads (the request body as
text, the response body as JSON), so the reporter does read bodies in
verbose mode. -/
theorem printTestRun_reads_bodies_cx :
    (printTestRun sampleRun true).countP isBodyRead = 2 := by
  decide

/-- C3 amended: in non-verbose mode printTestRun performs no read of any
network call request or response body; only the verbose mode re-reads
the captured bodies. -/
theorem printTestRun_no_body_reads_nonverbose (tr : TestRun) :
    (printTestRun tr false).countP isBodyRead = 0 := by
  unfold printTestRun printColoredTextTestRun
  cases hf : tr.result.failure with
  | none => simp [isBodyRead]
  | some f =>
      cases he : tr.result.expected with
      | none => simp [isBodyRead]
      | some e =>
          cases ha : tr.result.actual with
          | none => simp [isBodyRead]
          | some a =>
              by_cases hcond : e ≠ "" ∧ a ≠ "" <;> simp [isBodyRead, hcond]

/-- The body-print events never include the Expected/Received pair. -/
theorem bodyPrint_no_expectedReceived (b : Option String) :
    (bodyPrint b).countP isExpectedReceived = 0 := by
  unfold bodyPrint
  cases b with
  | none => rfl
  | some s => by_cases h : s = "" <;> simp [h, isExpectedReceived]

/-- The request-body section never includes the Expected/Received pair. -/
theorem requestBodyEvents_no_expectedReceived (req : RequestModel) :
    (requestBodyEvents req).countP isExpectedReceived = 0 := by
  unfold requestBodyEvents
  cases headerLookup req.headers "content-type" with
  | none => simp [isExpectedReceived, List.countP_cons, bodyPrint_no_expectedReceived]
  | some ct =>
      by_cases h1 : jsIncludes ct "json" = true
      · simp [h1, isExpectedReceived, List.countP_cons, bodyPrint_no_expectedReceived]
      · by_cases h2 : jsIncludes ct "multipart/form-data" = true
        · simp [h1, h2]
        · simp [h1, h2, isExpectedReceived, List.countP_cons, bodyPrint_no_expectedReceived]

/-- The response section never includes the Expected/Received pair. -/
theorem responseEvents_no_expectedReceived (response : Option ResponseModel) :
    (responseEvents response).countP isExpectedReceived = 0 := by
  unfold responseEvents
  cases response with
  | none => rfl
  | some resp =>
      have hmap : (resp.headers.map (fun p => REvent.responseHeader p.1 p.2)).countP
          isExpectedReceived = 0 := by
        induction resp.headers with
        | nil => rfl
        | cons a t ih => simp [List.countP_cons, isExpectedReceived, ih]
      cases hct : headerLookup resp.headers "content-type" with
      | none => simp [hct, isExpectedReceived, hmap, List.countP_append]
      | some ct =>
          by_cases h : jsIncludes ct "json" = true <;>
            simp [hct, h, isExpectedReceived, hmap, List.countP_append]

/-- A rendered network-call section never includes the Expected/Received
pair. -/
theorem renderNetworkCall_no_expectedReceived (call : NetworkCall) :
    (renderNetworkCall call).countP isExpectedReceived = 0 := by
  unfold renderNetworkCall
  simp only [List.countP_append]
  have hmap : (call.request.headers.map (fun p => REvent.requestHeader p.1 p.2)).countP
      isExpectedReceived = 0 := by
    induction call.request.headers with
    | nil => rfl
    | cons a t ih => simp [List.countP_cons, isExpectedReceived, ih]
  simp [isExpectedReceived, hmap, requestBodyEvents_no_expectedReceived,
        responseEvents_no_expectedReceived]

/-- No event of a rendered network-call section is the Expected/Received
pair. -/
theorem renderNetworkCall_not_expectedReceived_mem (call : NetworkCall) (a : REvent)
    (ha : a ∈ renderNetworkCall call) : isExpectedReceived a = false := by
  have h := renderNetworkCall_no_expectedReceived call
  rw [List.countP_eq_zero] at h
  simpa using h a ha

/-- C10: on a failed TestRun the reporter emits the Expected/Received pair
exactly when both the expected and the actual payload are truthy; a Result
carrying only one of the two payloads, or falsy ones, renders neither
line. -/
theorem printTestRun_expected_received_iff (tr : TestRun) (v : Bool)
    (hf : tr.result.failure.isSome = true) :
    (printTestRun tr v).countP isExpectedReceived =
      (if truthy tr.result.expected && truthy tr.result.actual then 1 else 0) := by
  unfold printTestRun printColoredTextTestRun
  cases hfail : tr.result.failure with
  | none => rw [hfail] at hf; simp at hf
  | some f =>
      cases he : tr.result.expected with
      | none =>
          simp [isExpectedReceived, truthy]
          intro b hv hne x hx hbx
          exact renderNetworkCall_not_expectedReceived_mem x b hbx
      | some e =>
          cases ha : tr.result.actual with
          | none =>
              simp [isExpectedReceived, truthy]
              intro b hv hne x hx hbx
              exact renderNetworkCall_not_expectedReceived_mem x b hbx
          | some a =>
              by_cases he2 : e = "" <;> by_cases ha2 : a = "" <;>
                simp [isExpectedReceived, truthy, he2, ha2] <;>
                (intro b hv hne x hx hbx
                 exact renderNetworkCall_not_expectedReceived_mem x b hbx)

/-- C10 witness: the failed run carrying both payloads renders exactly one
Expected/Received pair. -/
theorem printTestRun_expected_received_witness :
    (printTestRun failedRun false).countP isExpectedReceived =
      (if truthy failedRun.result.expected && truthy failedRun.result.actual then 1 else 0) :=
  printTestRun_expected_received_iff failedRun false rfl

end StellarAnchor
